import Mathlib

/-!
Shallow embedding of the gst-tutorial network-clock playback client
(`playback.c`, the network-clock variant) and the network clock provider
(`network-clocks/netclock-server.c`).

The pipeline (playbin), the GLib main loop and the bus are external
collaborators; we embed the controller logic as pure functions from the
inputs the C callbacks receive (parsed message payloads, queried pipeline
properties, queried position) to the updated controller state and the
ordered list of commands the code issues to those collaborators.
-/

namespace GstTutorial

/-- Constant GST_SECOND: nanoseconds per second. -/
def GST_SECOND : Int := 1000000000

/-- Constant GST_MSECOND: nanoseconds per millisecond. -/
def GST_MSECOND : Int := 1000000

/-- Constant GST_CLOCK_TIME_NONE: the unsigned 64-bit sentinel ((GstClockTime)-1)
meaning an unknown/unset clock time. -/
def GST_CLOCK_TIME_NONE : Nat := 18446744073709551615

/-- Playbin flag bit PLAY_FLAGS_VIDEO (0x1). -/
def PLAY_FLAGS_VIDEO : Nat := 1

/-- Playbin flag bit PLAY_FLAGS_AUDIO (0x2). -/
def PLAY_FLAGS_AUDIO : Nat := 2

/-- Playbin flag bit PLAY_FLAGS_SUBTITLES (0x4). -/
def PLAY_FLAGS_SUBTITLES : Nat := 4

/-- Playbin flag bit PLAY_FLAGS_VISUALISATIONS (0x8). -/
def PLAY_FLAGS_VISUALISATIONS : Nat := 8

/-- Playbin flag bit PLAY_FLAGS_DOWNLOAD (0x80). -/
def PLAY_FLAGS_DOWNLOAD : Nat := 128

/-- GStreamer element states relevant to this program. -/
inductive GstState where
  | Null
  | Ready
  | Paused
  | Playing
deriving DecidableEq

/-- Controller state: the mutable fields of the C GlobalData struct.
The loop, playbin handle and watch ids are collaborator handles, not data. -/
structure GlobalData where
  buffering : Bool
  is_live : Bool
deriving DecidableEq

/-- A command the controller issues to a collaborator (pipeline, loop, console),
in program order. -/
inductive Cmd where
  /-- gst_element_set_state on the playbin. -/
  | setState (s : GstState)
  /-- gst_element_seek_simple with GST_FORMAT_TIME; flushing is true iff
  GST_SEEK_FLAG_FLUSH is passed. -/
  | seekSimple (flushing : Bool) (position : Int)
  /-- g_main_loop_quit. -/
  | quitLoop
  /-- gst_bin_recalculate_latency. -/
  | recalcLatency
  /-- g_object_set of the playbin "current-audio" property. -/
  | setCurrentAudio (n : Int)
  /-- g_object_set of the playbin "current-text" property. -/
  | setCurrentText (n : Int)
  /-- g_object_set of the playbin "flags" property. -/
  | setFlags (flags : Nat)
  /-- g_print of a bare newline before the first buffering report. -/
  | printNewline
  /-- g_print of the "Buffering... N%" progress line. -/
  | printBufferingPercent (percent : Int)
  /-- g_print of "Finished playback. Exiting." on EOS. -/
  | printFinished
  /-- g_printerr of "ERROR from element <src>: <message>". -/
  | printErrorFrom (srcName errMessage : String)
  /-- g_printerr of "Debugging info: ..." (the parsed debug string, if any). -/
  | printDebugInfo (dbgInfo : Option String)
  /-- g_print of "Exiting." after an error. -/
  | printExiting
  /-- g_print of "Found tags". -/
  | printFoundTags
  /-- g_print of the artist tag value. -/
  | printArtist (value : String)
  /-- g_print of the title tag value. -/
  | printTitle (value : String)
  /-- g_print of the album tag value. -/
  | printAlbum (value : String)
  /-- g_print of "Prerolled." -/
  | printPrerolled
  /-- g_print of the "Video size: WxH" line. -/
  | printVideoSize (width height : Int)
  /-- g_print of "Clock lost, selecting a new one". -/
  | printClockLost
  /-- g_print of "Redistribute latency...". -/
  | printRedistribute
  /-- g_print of "Setting state to <state> as requested by <path>...". -/
  | printSettingState (s : GstState) (srcPath : String)
  /-- g_printerr of "WARNING <message>". -/
  | printWarningMsg (errMessage : String)
  /-- g_printerr of "WARNING debug information: ...". -/
  | printWarningDbg (dbgInfo : String)
  /-- g_print of "Reached playing. Base time is ..." (queried base time). -/
  | printReachedPlaying
  /-- g_print of "Missing plugin: <description>". -/
  | printMissingPlugin (description : String)
  /-- g_print of "Now playing audio track i of n". -/
  | printAudioTrack (current count : Int)
  /-- g_print of "Disabling subtitles" or "Enabling subtitles". -/
  | printSubtitlesEnabled (enabled : Bool)
  /-- g_print of "Now showing subtitles track i of n". -/
  | printSubtitleTrack (current count : Int)
  /-- g_print of "Disabling visualisations" or "Enabling visualisations". -/
  | printVisEnabled (enabled : Bool)
deriving DecidableEq

/-- Parsed caps of the current video pad, as read in the ASYNC_DONE handler.
par_n/par_d default to 1 when the caps carry no pixel-aspect fraction. -/
structure VideoCaps where
  width : Int
  height : Int
  par_n : Int
  par_d : Int
deriving DecidableEq

/-- A GStreamer bus message, carrying the payloads the handler parses out of it. -/
inductive GstMessage where
  | eos
  | error (srcName errMessage : String) (dbgInfo : Option String)
  | tag (artist title album : Option String)
  | asyncDone (videoPad : Option VideoCaps)
  | buffering (percent : Int)
  | clockLost
  | latency
  | requestState (srcPath : String) (s : GstState)
  | warning (errMessage : String) (dbgInfo : Option String)
  | stateChanged (srcIsPlaybin : Bool) (old new pending : GstState)
  | other (missingPluginDesc : Option String)
deriving DecidableEq

/-- Result of one handle_bus_msg invocation: the updated GlobalData, the
commands issued during the call in order, and the gboolean return value
(TRUE keeps the bus watch installed). -/
structure BusResult where
  data : GlobalData
  cmds : List Cmd
  keepWatch : Bool
deriving DecidableEq

/-- handle_bus_msg from playback.c: dispatch on the bus message type. -/
def handle_bus_msg (msg : GstMessage) (data : GlobalData) : BusResult :=
  match msg with
  | .eos =>
      ⟨data, [.printFinished, .quitLoop], true⟩
  | .error srcName errMessage dbgInfo =>
      ⟨data, [.printErrorFrom srcName errMessage, .printDebugInfo dbgInfo,
              .printExiting, .quitLoop], true⟩
  | .tag artist title album =>
      let cmds := [Cmd.printFoundTags]
        ++ (match artist with | some v => [Cmd.printArtist v] | none => [])
        ++ (match title with | some v => [Cmd.printTitle v] | none => [])
        ++ (match album with | some v => [Cmd.printAlbum v] | none => [])
      ⟨data, cmds, true⟩
  | .asyncDone videoPad =>
      let cmds := [Cmd.printPrerolled]
        ++ (match videoPad with
            | some c => [Cmd.printVideoSize (Int.tdiv (c.width * c.par_n) c.par_d) c.height]
            | none => [])
      ⟨data, cmds, true⟩
  | .buffering percent =>
      let pre := (if !data.buffering then [Cmd.printNewline] else [])
        ++ [Cmd.printBufferingPercent percent]
      -- no state management needed for live pipelines
      if data.is_live then
        ⟨data, pre, true⟩
      else if percent = 100 then
        -- a 100% message means buffering is done
        if data.buffering then
          ⟨{ data with buffering := false }, pre ++ [.setState .Playing], true⟩
        else
          ⟨data, pre, true⟩
      else
        -- buffering...
        if !data.buffering then
          ⟨{ data with buffering := true }, pre ++ [.setState .Paused], true⟩
        else
          ⟨data, pre, true⟩
  | .clockLost =>
      -- Clock-lost means the pipeline wants to select a new clock,
      -- which is done by pausing/playing
      ⟨data, [.printClockLost, .setState .Paused, .setState .Playing], true⟩
  | .latency =>
      ⟨data, [.printRedistribute, .recalcLatency], true⟩
  | .requestState srcPath s =>
      ⟨data, [.printSettingState s srcPath, .setState s], true⟩
  | .warning errMessage dbgInfo =>
      let cmds := [Cmd.printWarningMsg errMessage]
        ++ (match dbgInfo with | some v => [Cmd.printWarningDbg v] | none => [])
      ⟨data, cmds, true⟩
  | .stateChanged srcIsPlaybin old new _pending =>
      if srcIsPlaybin ∧ old = .Paused ∧ new = .Playing then
        ⟨data, [.printReachedPlaying], true⟩
      else
        ⟨data, [], true⟩
  | .other missingPluginDesc =>
      match missingPluginDesc with
      | some d => ⟨data, [.printMissingPlugin d], true⟩
      | none => ⟨data, [], true⟩

/-- Keep only the pipeline state-change commands of a command list. -/
def stateCmds (cmds : List Cmd) : List Cmd :=
  cmds.filter fun c => match c with | .setState _ => true | _ => false

/-- Feed a sequence of buffering percents through handle_bus_msg,
accumulating the issued commands. -/
def run_buffering (data : GlobalData) (percents : List Int) : GlobalData × List Cmd :=
  percents.foldl
    (fun acc p =>
      let r := handle_bus_msg (.buffering p) acc.1
      (r.data, acc.2 ++ r.cmds))
    (data, [])

/-- seek from playback.c. The position query against the pipeline is a
collaborator call; its result is the queryPos argument (none when
gst_element_query_position returns FALSE). Returns the unchanged
controller state and the issued commands. -/
def seek (data : GlobalData) (queryPos : Option Int) (forward : Bool) :
    GlobalData × List Cmd :=
  match queryPos with
  | none => (data, [])
  | some position =>
      let position :=
        if forward then position + 10 * GST_SECOND
        else if position > 10 * GST_SECOND then position - 10 * GST_SECOND
        else 0
      (data, [Cmd.seekSimple true position])

/-- The playbin properties read and written by the track/subtitle handlers. -/
structure PlaybinProps where
  flags : Nat
  current_audio : Int
  n_audio : Int
  current_text : Int
  n_text : Int
deriving DecidableEq

/-- next_audio from playback.c: advance "current-audio" with wraparound. -/
def next_audio (p : PlaybinProps) : PlaybinProps × List Cmd :=
  let current := p.current_audio + 1
  let current := if current ≥ p.n_audio then 0 else current
  ({ p with current_audio := current },
   [.setCurrentAudio current, .printAudioTrack current p.n_audio])

/-- toggle_subtitle from playback.c: flip the PLAY_FLAGS_SUBTITLES bit of the
playbin "flags" property (a 32-bit gint bitmask; the C clear is
flags &= ~PLAY_FLAGS_SUBTITLES, i.e. a mask with every bit but 0x4 set). -/
def toggle_subtitle (p : PlaybinProps) : PlaybinProps × List Cmd :=
  if p.flags &&& PLAY_FLAGS_SUBTITLES ≠ 0 then
    let flags := p.flags &&& 4294967291
    ({ p with flags := flags }, [.printSubtitlesEnabled false, .setFlags flags])
  else
    let flags := p.flags ||| PLAY_FLAGS_SUBTITLES
    ({ p with flags := flags }, [.printSubtitlesEnabled true, .setFlags flags])

/-- next_subtitle from playback.c: advance "current-text" with wraparound,
then unconditionally set the PLAY_FLAGS_SUBTITLES bit. -/
def next_subtitle (p : PlaybinProps) : PlaybinProps × List Cmd :=
  let current := p.current_text + 1
  let current := if current ≥ p.n_text then 0 else current
  let flags := p.flags ||| PLAY_FLAGS_SUBTITLES
  ({ p with current_text := current, flags := flags },
   [.setCurrentText current, .setFlags flags,
    .printSubtitleTrack current p.n_text])

/-- toggle_vis from playback.c: flip the PLAY_FLAGS_VISUALISATIONS bit. -/
def toggle_vis (p : PlaybinProps) : PlaybinProps × List Cmd :=
  if p.flags &&& PLAY_FLAGS_VISUALISATIONS ≠ 0 then
    let flags := p.flags &&& 4294967287
    ({ p with flags := flags }, [.printVisEnabled false, .setFlags flags])
  else
    let flags := p.flags ||| PLAY_FLAGS_VISUALISATIONS
    ({ p with flags := flags }, [.printVisEnabled true, .setFlags flags])

/-- The action io_callback dispatches for one input character. -/
inductive KeyAction where
  | quit
  | seekBack
  | seekFwd
  | nextAudioTrack
  | toggleSubtitles
  | nextSubtitleTrack
  | toggleVisualisations
  | ignore
deriving DecidableEq

/-- The per-character dispatch of io_callback in playback.c. -/
def io_dispatch : Char → KeyAction
  | 'q' => .quit
  | 'f' => .seekBack
  | 'g' => .seekFwd
  | 'a' => .nextAudioTrack
  | 'd' => .toggleSubtitles
  | 's' => .nextSubtitleTrack
  | 'v' => .toggleVisualisations
  | _ => .ignore

/-- The result gst_element_set_state returns for the initial PLAYING request. -/
inductive StateChangeReturn where
  | Failure
  | Success
  | Async
  | NoPreroll
deriving DecidableEq

/-- One step of the straight-line part of the consumer's main(), in program
order. Steps record the arguments main passes to collaborators. -/
inductive MainStep where
  /-- g_option_context_parse of the CLI options. -/
  | parseOptions
  /-- g_print of the usage/help text. -/
  | printUsage
  /-- gst_net_client_clock_new against clock_host:clock_port. -/
  | newNetClientClock (host : Option String) (port : Int)
  /-- gst_clock_wait_for_sync with the given timeout. -/
  | waitForSync (timeout : Nat)
  /-- g_print of "Network clock is synched to master". -/
  | printSynched
  /-- create_element of the playbin pipeline. -/
  | createPlaybin
  /-- g_print of "Failed to create element ..." inside create_element. -/
  | printFailedElement
  /-- gst_pipeline_use_clock with the network clock. -/
  | useClock
  /-- gst_object_unref of the network clock. -/
  | unrefClock
  /-- gst_element_set_start_time on the playbin. -/
  | setStartTime (t : Nat)
  /-- gst_element_set_base_time on the playbin. -/
  | setBaseTime (t : Nat)
  /-- gst_pipeline_set_latency. -/
  | setLatency (t : Int)
  /-- g_object_set of the playbin "uri" property. -/
  | setUri (uri : String)
  /-- read-modify-write of the playbin "flags" to add PLAY_FLAGS_DOWNLOAD. -/
  | setDownloadFlag
  /-- gst_bus_add_watch installing handle_bus_msg. -/
  | addBusWatch
  /-- g_main_loop_new. -/
  | newMainLoop
  /-- gst_element_set_state (playbin, GST_STATE_PLAYING): the start command. -/
  | setStatePlaying
  /-- g_print of "Now playing <uri>". -/
  | printNowPlaying
  /-- g_print of "Pipeline is live." on GST_STATE_CHANGE_NO_PREROLL. -/
  | printPipelineLive
  /-- g_print of "Prerolling..." on GST_STATE_CHANGE_ASYNC. -/
  | printPrerolling
  /-- g_io_add_watch installing io_callback on stdin. -/
  | addIoWatch
  /-- g_main_loop_run: the playback loop. -/
  | runMainLoop
  /-- source removal, set_state NULL, unrefs before return. -/
  | cleanup
deriving DecidableEq

/-- The inputs that determine the consumer main()'s control flow: the parsed
CLI state (absent options leave the global defaults: clock_host NULL,
clock_port 0, base_time GST_CLOCK_TIME_NONE), whether the playbin factory
exists, and the set_state return. -/
structure MainConfig where
  argc : Nat
  clock_host : Option String
  clock_port : Int
  base_time : Nat
  uri : String
  playbin_ok : Bool
  sret : StateChangeReturn
deriving DecidableEq

/-- Trace of steps performed and the process exit code. -/
structure MainResult where
  trace : List MainStep
  exitCode : Nat
deriving DecidableEq

/-- The prints the sret switch after the start command performs. -/
def sretSteps : StateChangeReturn → List MainStep
  | .NoPreroll => [.printPipelineLive]
  | .Async => [.printPrerolling]
  | _ => []

/-- main from playback.c, as the ordered trace of collaborator calls it makes
and the exit code it produces. The main loop body (bus and IO callbacks) is
modelled separately by handle_bus_msg / io_dispatch; after the loop quits,
main always cleans up and returns 0. -/
def main_run (cfg : MainConfig) : MainResult :=
  if cfg.argc < 2 ∨ cfg.clock_host = none ∨ cfg.clock_port = 0 then
    ⟨[.parseOptions, .printUsage], 1⟩
  else if cfg.playbin_ok = false then
    -- create_element prints a diagnostic and calls exit(1)
    ⟨[.parseOptions, .newNetClientClock cfg.clock_host cfg.clock_port,
      .waitForSync GST_CLOCK_TIME_NONE, .printSynched, .createPlaybin,
      .printFailedElement], 1⟩
  else
    ⟨[.parseOptions, .newNetClientClock cfg.clock_host cfg.clock_port,
      .waitForSync GST_CLOCK_TIME_NONE, .printSynched, .createPlaybin,
      .useClock, .unrefClock]
     ++ (if cfg.base_time ≠ GST_CLOCK_TIME_NONE then
          [.setStartTime GST_CLOCK_TIME_NONE, .setBaseTime cfg.base_time]
         else [])
     ++ [.setLatency (100 * GST_MSECOND), .setUri cfg.uri, .setDownloadFlag,
         .addBusWatch, .newMainLoop, .setStatePlaying, .printNowPlaying]
     ++ sretSteps cfg.sret
     ++ [.addIoWatch, .runMainLoop, .cleanup], 0⟩

/-- True while no pipeline-construction or start command has been reached
before the first wait-for-sync step of a trace. -/
def pipelineGatedBySync : List MainStep → Bool
  | [] => true
  | s :: rest =>
      match s with
      | .waitForSync _ => true
      | .createPlaybin => false
      | .setStatePlaying => false
      | _ => pipelineGatedBySync rest

/-- The base-time-related steps of a trace: clearing the start time, setting
the base time, and the start command. -/
def baseTimeSteps (t : List MainStep) : List MainStep :=
  t.filter fun s =>
    match s with
    | .setStartTime _ => true
    | .setBaseTime _ => true
    | .setStatePlaying => true
    | _ => false

/-- One step of the provider's main() (netclock-server.c), in program order. -/
inductive ServerStep where
  /-- gst_init. -/
  | gstInit
  /-- g_main_loop_new. -/
  | newMainLoop
  /-- gst_system_clock_obtain. -/
  | obtainSystemClock
  /-- gst_net_time_provider_new on the requested port (0 = ephemeral). -/
  | newNetTimeProvider (requestedPort : Int)
  /-- g_print of "Published network clock on port N" with the bound port
  read back from the provider's "port" property. -/
  | printPublishedPort (boundPort : Int)
  /-- g_timeout_add_seconds installing print_time at the given interval. -/
  | addTimeoutSeconds (interval : Nat)
  /-- g_main_loop_run. -/
  | runMainLoop
deriving DecidableEq

/-- The listen port the server uses: atoi(argv[1]) when a first argument is
present, 0 otherwise. argv1 is the parsed value of that argument. -/
def requestedPort (argv1 : Option Int) : Int :=
  match argv1 with
  | some v => v
  | none => 0

/-- main from netclock-server.c as its trace of collaborator calls. bind is
the collaborator function giving the port the net time provider actually
bound (read back via g_object_get of "port"). The loop body is modelled by
server_loop; nothing in the program ever calls g_main_loop_quit, and main
only returns after g_main_loop_run does. -/
def server_main (argv1 : Option Int) (bind : Int → Int) : List ServerStep :=
  [.gstInit, .newMainLoop, .obtainSystemClock,
   .newNetTimeProvider (requestedPort argv1),
   .printPublishedPort (bind (requestedPort argv1)),
   .addTimeoutSeconds 1, .runMainLoop]

/-- The startup prints of a server trace. -/
def serverPrints (t : List ServerStep) : List ServerStep :=
  t.filter fun s =>
    match s with
    | .printPublishedPort _ => true
    | _ => false

/-- An output line the server's timer callback writes. -/
inductive ServerOut where
  /-- g_print of "Base time N" with the sampled clock value. -/
  | baseTimeOut (t : Nat)
deriving DecidableEq

/-- print_time from netclock-server.c: print the clock's current time and
return G_SOURCE_CONTINUE (true), keeping the one-second timer installed. -/
def print_time (clockTime : Nat) : ServerOut × Bool :=
  (.baseTimeOut clockTime, true)

/-- The server's main loop after n one-second timer ticks: the outputs so
far and whether the loop is still running. clock samples the system clock
at each tick. The timer source stays installed while its callback returns
true; no other event source exists and nothing quits the loop. -/
def server_loop (clock : Nat → Nat) : Nat → List ServerOut × Bool
  | 0 => ([], true)
  | n + 1 =>
      let acc := server_loop clock n
      if acc.2 then
        let r := print_time (clock n)
        (acc.1 ++ [r.1], r.2)
      else
        acc

/-- the empty string, used to instantiate string-typed inputs in examples. -/
def emptyStr : String := ⟨[]⟩

/-- A well-formed example CLI configuration: a media argument, a clock host,
port 7, base-time override 0, playbin available, async preroll. -/
def mainCfgExample : MainConfig :=
  ⟨2, some emptyStr, 7, 0, emptyStr, true, .Async⟩

/-- An example CLI configuration with every required option missing: no media
argument, no clock host, port 0, base_time left at its sentinel default. -/
def badCfgExample : MainConfig :=
  ⟨1, none, 0, GST_CLOCK_TIME_NONE, emptyStr, true, .Failure⟩

/-- An example bind collaborator: the provider reports bound port 5. -/
def bindExample : Int → Int := fun _ => 5

/-- An example system clock sampling function. -/
def clockExample : Nat → Nat := fun k => k

/-- Claim C1: for a buffering message, on a non-live session a percent below
100 while the buffering flag is clear issues exactly one pause command and
sets the flag; with the flag set, only percent = 100 issues exactly one
resume-to-playing command and clears the flag; a live session never issues a
state command for buffering; the percent sequence 90, 95, 99, 100 yields
exactly one pause then one resume when non-live, and no state command when
live. -/
theorem C1_buffering_hysteresis :
    (∀ (d : GlobalData) (p : Int), d.is_live = false → d.buffering = false →
      p < 100 →
      stateCmds (handle_bus_msg (.buffering p) d).cmds = [.setState .Paused] ∧
      (handle_bus_msg (.buffering p) d).data.buffering = true) ∧
    (∀ (d : GlobalData) (p : Int), d.is_live = false → d.buffering = true →
      (p = 100 →
        stateCmds (handle_bus_msg (.buffering p) d).cmds = [.setState .Playing] ∧
        (handle_bus_msg (.buffering p) d).data.buffering = false) ∧
      (p ≠ 100 →
        stateCmds (handle_bus_msg (.buffering p) d).cmds = [] ∧
        (handle_bus_msg (.buffering p) d).data = d)) ∧
    (∀ (d : GlobalData) (p : Int), d.is_live = true →
      stateCmds (handle_bus_msg (.buffering p) d).cmds = [] ∧
      (handle_bus_msg (.buffering p) d).data = d) ∧
    stateCmds (run_buffering ⟨false, false⟩ [90, 95, 99, 100]).2 =
      [.setState .Paused, .setState .Playing] ∧
    stateCmds (run_buffering ⟨false, true⟩ [90, 95, 99, 100]).2 = [] := by
  refine ⟨?_, ?_, ?_, ?_, ?_⟩
  · intro d p hlive hbuf hlt
    have hne : ¬(p = 100) := by omega
    simp [handle_bus_msg, hlive, hbuf, hne, stateCmds]
  · intro d p hlive hbuf
    constructor
    · intro he
      simp [handle_bus_msg, hlive, hbuf, he, stateCmds]
    · intro hne
      simp [handle_bus_msg, hlive, hbuf, hne, stateCmds]
  · intro d p hlive
    simp [handle_bus_msg, hlive, stateCmds]
  · decide
  · decide

/-- Claim C1 witness: evaluated at percent 90 on a fresh non-live session. -/
theorem C1_buffering_hysteresis_witness :
    stateCmds (handle_bus_msg (.buffering 90) ⟨false, false⟩).cmds =
      [.setState .Paused] ∧
    (handle_bus_msg (.buffering 90) ⟨false, false⟩).data.buffering = true :=
  C1_buffering_hysteresis.1 ⟨false, false⟩ 90 rfl rfl (by decide)

/-- Claim C2: with a successfully queried position P, a forward seek issues a
flushing seek to P plus ten seconds; a backward seek issues a flushing seek
to P minus ten seconds when P exceeds ten seconds and to exactly 0
otherwise; in particular P = 5 s backward yields 0 and P = 30 s backward
yields 20 s; the controller state is unchanged in every case. -/
theorem C2_seek_clamp :
    (∀ (d : GlobalData) (P : Int),
      seek d (some P) true = (d, [Cmd.seekSimple true (P + 10 * GST_SECOND)])) ∧
    (∀ (d : GlobalData) (P : Int), P > 10 * GST_SECOND →
      seek d (some P) false = (d, [Cmd.seekSimple true (P - 10 * GST_SECOND)])) ∧
    (∀ (d : GlobalData) (P : Int), P ≤ 10 * GST_SECOND →
      seek d (some P) false = (d, [Cmd.seekSimple true 0])) ∧
    (∀ d : GlobalData,
      seek d (some (5 * GST_SECOND)) false = (d, [Cmd.seekSimple true 0])) ∧
    (∀ d : GlobalData,
      seek d (some (30 * GST_SECOND)) false =
        (d, [Cmd.seekSimple true (20 * GST_SECOND)])) := by
  refine ⟨?_, ?_, ?_, ?_, ?_⟩
  · intro d P
    simp [seek]
  · intro d P h
    simp [seek, h]
  · intro d P h
    have hn : ¬(P > 10 * GST_SECOND) := by omega
    simp [seek, hn]
  · intro d
    simp [seek, GST_SECOND]
  · intro d
    norm_num [seek, GST_SECOND]

/-- Claim C2 witness: evaluated at P = 30 seconds seeking backward. -/
theorem C2_seek_clamp_witness :
    (30 * GST_SECOND : Int) > 10 * GST_SECOND ∧
    seek ⟨false, false⟩ (some (30 * GST_SECOND)) false =
      (⟨false, false⟩, [Cmd.seekSimple true (30 * GST_SECOND - 10 * GST_SECOND)]) :=
  ⟨by decide, C2_seek_clamp.2.1 ⟨false, false⟩ (30 * GST_SECOND) (by decide)⟩

/-- Claim C3: a clock-lost message makes the handler issue exactly the command
sequence print, set-state Paused, set-state Playing — so the two state
commands are Paused first then Playing with nothing between them — and
leaves the controller state (buffering and liveness flags) unchanged. -/
theorem C3_clock_lost_recovery (d : GlobalData) :
    handle_bus_msg .clockLost d =
      ⟨d, [.printClockLost, .setState .Paused, .setState .Playing], true⟩ ∧
    stateCmds (handle_bus_msg .clockLost d).cmds =
      [.setState .Paused, .setState .Playing] := by
  exact ⟨rfl, rfl⟩

/-- Claim C9: when the position query fails, seek issues no command at all and
leaves the controller state unchanged, for either direction. -/
theorem C9_seek_query_failure (d : GlobalData) (forward : Bool) :
    seek d none forward = (d, []) := rfl

/-- Claim C10: next_subtitle always leaves the subtitles flag bit set —
including right after toggle_subtitle disabled it — sets current-text to
current+1 when current+1 < count and to 0 otherwise, and changes no other
flag bit and no other playbin property; the input character for this
command is the letter s. -/
theorem C10_next_subtitle_enables_subtitles (p : PlaybinProps) :
    (next_subtitle p).1.flags.testBit 2 = true ∧
    (next_subtitle (toggle_subtitle p).1).1.flags.testBit 2 = true ∧
    (∀ i : Nat, i ≠ 2 →
      (next_subtitle p).1.flags.testBit i = p.flags.testBit i) ∧
    (next_subtitle p).1.current_text =
      (if p.current_text + 1 < p.n_text then p.current_text + 1 else 0) ∧
    (next_subtitle p).1.current_audio = p.current_audio ∧
    (next_subtitle p).1.n_audio = p.n_audio ∧
    (next_subtitle p).1.n_text = p.n_text ∧
    io_dispatch 's' = .nextSubtitleTrack := by
  have h4 : (PLAY_FLAGS_SUBTITLES : Nat) = 2 ^ 2 := rfl
  refine ⟨?_, ?_, ?_, ?_, rfl, rfl, rfl, rfl⟩
  · simp [next_subtitle, Nat.testBit_lor]
    exact Or.inr (by decide)
  · simp [next_subtitle, Nat.testBit_lor]
    exact Or.inr (by decide)
  · intro i hi
    simp [next_subtitle, Nat.testBit_lor, h4,
      Nat.testBit_two_pow_of_ne (Ne.symm hi)]
  · simp only [next_subtitle]
    split
    · next h =>
        rw [if_neg]
        omega
    · next h =>
        rw [if_pos]
        omega

/-- Claim C10 witness: bit 0 of the flags is preserved at a concrete input. -/
theorem C10_next_subtitle_enables_subtitles_witness :
    (next_subtitle ⟨1, 0, 1, 0, 1⟩).1.flags.testBit 0 =
      (⟨1, 0, 1, 0, 1⟩ : PlaybinProps).flags.testBit 0 :=
  (C10_next_subtitle_enables_subtitles ⟨1, 0, 1, 0, 1⟩).2.2.1 0 (by decide)

/-- Claim C4: in every run of the consumer's main, no pipeline construction
and no start command is reached before the blocking wait for clock
synchronisation, and that wait is always invoked with the no-timeout
sentinel GST_CLOCK_TIME_NONE (it may block indefinitely). -/
theorem C4_sync_gate (cfg : MainConfig) :
    pipelineGatedBySync (main_run cfg).trace = true ∧
    (∀ t : Nat, MainStep.waitForSync t ∈ (main_run cfg).trace →
      t = GST_CLOCK_TIME_NONE) := by
  obtain ⟨argc, host, port, bt, uri, pb, sret⟩ := cfg
  by_cases h : argc < 2 ∨ host = none ∨ port = 0
  · refine ⟨by simp [main_run, h, pipelineGatedBySync], ?_⟩
    intro t ht
    simp [main_run, h] at ht
  · by_cases hpb : pb = false
    · refine ⟨by simp [main_run, h, hpb, pipelineGatedBySync], ?_⟩
      intro t ht
      simp [main_run, h, hpb] at ht
      exact ht
    · constructor
      · cases sret <;> by_cases hbt : bt = GST_CLOCK_TIME_NONE <;>
          simp [main_run, h, hpb, hbt, pipelineGatedBySync, sretSteps]
      · intro t ht
        cases sret <;> by_cases hbt : bt = GST_CLOCK_TIME_NONE <;>
          simp [main_run, h, hpb, hbt, sretSteps] at ht <;> exact ht

/-- Claim C4 witness: evaluated on the example configuration. -/
theorem C4_sync_gate_witness :
    pipelineGatedBySync (main_run mainCfgExample).trace = true ∧
    GST_CLOCK_TIME_NONE = GST_CLOCK_TIME_NONE :=
  ⟨(C4_sync_gate mainCfgExample).1,
   (C4_sync_gate mainCfgExample).2 GST_CLOCK_TIME_NONE (by decide)⟩

/-- Claim C5: when the CLI is valid and the playbin exists, the base-time
related steps of main are exactly clear-start-time, set-base-time, start
command, in that order, when an override was supplied (base_time not the
sentinel), and exactly the start command alone otherwise — so the override
is applied if and only if supplied, at most once, and before playing. -/
theorem C5_base_time_override (cfg : MainConfig)
    (hargs : ¬(cfg.argc < 2 ∨ cfg.clock_host = none ∨ cfg.clock_port = 0))
    (hpb : cfg.playbin_ok = true) :
    (cfg.base_time ≠ GST_CLOCK_TIME_NONE →
      baseTimeSteps (main_run cfg).trace =
        [.setStartTime GST_CLOCK_TIME_NONE, .setBaseTime cfg.base_time,
         .setStatePlaying]) ∧
    (cfg.base_time = GST_CLOCK_TIME_NONE →
      baseTimeSteps (main_run cfg).trace = [.setStatePlaying]) := by
  obtain ⟨argc, host, port, bt, uri, pb, sret⟩ := cfg
  simp only at hargs hpb ⊢
  constructor
  · intro hbt
    cases sret <;>
      simp [main_run, hargs, hpb, hbt, baseTimeSteps, sretSteps]
  · intro hbt
    cases sret <;>
      simp [main_run, hargs, hpb, hbt, baseTimeSteps, sretSteps]

/-- Claim C5 witness: evaluated on the example configuration, whose base-time
override is 0. -/
theorem C5_base_time_override_witness :
    baseTimeSteps (main_run mainCfgExample).trace =
      [.setStartTime GST_CLOCK_TIME_NONE, .setBaseTime mainCfgExample.base_time,
       .setStatePlaying] :=
  (C5_base_time_override mainCfgExample (by decide) rfl).1 (by decide)

/-- Claim C6: whenever the media argument, the clock host or the clock port
is missing, main prints the usage text and exits with code 1 without ever
running the playback loop; with a valid CLI and an available playbin it
runs the loop and exits with code 0 (the loop quits on EOS or the q key). -/
theorem C6_cli_validation (cfg : MainConfig) :
    ((cfg.argc < 2 ∨ cfg.clock_host = none ∨ cfg.clock_port = 0) →
      (main_run cfg).exitCode = 1 ∧
      MainStep.printUsage ∈ (main_run cfg).trace ∧
      MainStep.runMainLoop ∉ (main_run cfg).trace) ∧
    (¬(cfg.argc < 2 ∨ cfg.clock_host = none ∨ cfg.clock_port = 0) →
      cfg.playbin_ok = true →
      (main_run cfg).exitCode = 0 ∧
      MainStep.runMainLoop ∈ (main_run cfg).trace) := by
  obtain ⟨argc, host, port, bt, uri, pb, sret⟩ := cfg
  constructor
  · intro h
    simp [main_run, h]
  · intro h hpb
    dsimp only at h hpb
    cases sret <;> by_cases hbt : bt = GST_CLOCK_TIME_NONE <;>
      simp [main_run, h, hpb, hbt, sretSteps]

/-- Claim C6 witness: evaluated on a configuration missing every required
option and on the well-formed example configuration. -/
theorem C6_cli_validation_witness :
    ((main_run badCfgExample).exitCode = 1 ∧
     MainStep.printUsage ∈ (main_run badCfgExample).trace ∧
     MainStep.runMainLoop ∉ (main_run badCfgExample).trace) ∧
    ((main_run mainCfgExample).exitCode = 0 ∧
     MainStep.runMainLoop ∈ (main_run mainCfgExample).trace) :=
  ⟨(C6_cli_validation badCfgExample).1 (by decide),
   (C6_cli_validation mainCfgExample).2 (by decide) rfl⟩

/-- Claim C7: an error message makes the handler log the source element name
and error message, then the debugging detail, then announce exit, then quit
the loop — issuing no state command, so the error is never retried — and
after the loop quits, main performs cleanup exactly once after the loop and
the process exits with code 0. -/
theorem C7_pipeline_error_handling :
    (∀ (srcName errMessage : String) (dbgInfo : Option String) (d : GlobalData),
      handle_bus_msg (.error srcName errMessage dbgInfo) d =
        ⟨d, [.printErrorFrom srcName errMessage, .printDebugInfo dbgInfo,
             .printExiting, .quitLoop], true⟩) ∧
    (∀ cfg : MainConfig,
      ¬(cfg.argc < 2 ∨ cfg.clock_host = none ∨ cfg.clock_port = 0) →
      cfg.playbin_ok = true →
      (main_run cfg).exitCode = 0 ∧
      (main_run cfg).trace.filter
          (fun s => match s with
            | .runMainLoop => true
            | .cleanup => true
            | _ => false) =
        [.runMainLoop, .cleanup]) := by
  refine ⟨fun _ _ _ _ => rfl, ?_⟩
  intro cfg h hpb
  obtain ⟨argc, host, port, bt, uri, pb, sret⟩ := cfg
  dsimp only at h hpb
  cases sret <;> by_cases hbt : bt = GST_CLOCK_TIME_NONE <;>
    simp [main_run, h, hpb, hbt, sretSteps]

/-- Claim C7 witness: the error handler evaluated at a concrete message, and
main's exit code on the example configuration. -/
theorem C7_pipeline_error_handling_witness :
    handle_bus_msg (.error emptyStr emptyStr none) ⟨false, false⟩ =
      ⟨⟨false, false⟩, [.printErrorFrom emptyStr emptyStr, .printDebugInfo none,
        .printExiting, .quitLoop], true⟩ ∧
    (main_run mainCfgExample).exitCode = 0 :=
  ⟨C7_pipeline_error_handling.1 emptyStr emptyStr none ⟨false, false⟩,
   (C7_pipeline_error_handling.2 mainCfgExample (by decide) rfl).1⟩

/-- The server loop never stops on its own: after any number of one-second
ticks it has printed the sampled clock value once per tick and the timer
callback has kept returning G_SOURCE_CONTINUE. -/
theorem server_loop_spec (clock : Nat → Nat) (n : Nat) :
    server_loop clock n =
      ((List.range n).map fun k => ServerOut.baseTimeOut (clock k), true) := by
  induction n with
  | zero => rfl
  | succ n ih => simp [server_loop, ih, print_time, List.range_succ]

/-- Claim C8: the provider takes one optional argument (the listen port,
defaulting to 0 = ephemeral); its only startup print reports the port the
provider actually bound, which is nonzero whenever the requested port was 0
and the bind collaborator honours the ephemeral contract; it then installs
a one-second timer whose callback prints the current clock value and keeps
the timer alive, so after any number of ticks the loop is still running —
the last step of main is running the loop, and nothing ever quits it. -/
theorem C8_provider_cli (argv1 : Option Int) (bind : Int → Int)
    (clock : Nat → Nat) (n : Nat) :
    serverPrints (server_main argv1 bind) =
      [.printPublishedPort (bind (requestedPort argv1))] ∧
    requestedPort none = 0 ∧
    (∀ v : Int, requestedPort (some v) = v) ∧
    (requestedPort argv1 = 0 → bind 0 ≠ 0 →
      ∀ q : Int, ServerStep.printPublishedPort q ∈ server_main argv1 bind →
        q ≠ 0) ∧
    (server_main argv1 bind).getLast? = some .runMainLoop ∧
    ServerStep.addTimeoutSeconds 1 ∈ server_main argv1 bind ∧
    server_loop clock n =
      ((List.range n).map fun k => ServerOut.baseTimeOut (clock k), true) ∧
    (print_time (clock n)).2 = true := by
  refine ⟨by simp [serverPrints, server_main], rfl, fun _ => rfl, ?_, rfl,
    by simp [server_main], server_loop_spec clock n, rfl⟩
  intro h0 hb q hq
  simp [server_main, h0] at hq
  rw [hq]
  exact hb

/-- Claim C8 witness: the provider evaluated with no argument and a bind
collaborator that reports port 5. -/
theorem C8_provider_cli_witness :
    serverPrints (server_main none bindExample) =
      [.printPublishedPort (bindExample 0)] ∧
    (5 : Int) ≠ 0 :=
  ⟨(C8_provider_cli none bindExample clockExample 3).1,
   (C8_provider_cli none bindExample clockExample 3).2.2.2.1 rfl (by decide)
     5 (by decide)⟩

end GstTutorial
